import Mathlib

/-!
Verification development for the pause/resume (execution-suspension) core of
the fluentlabs wasmtime fork, together with the alternate rwasm ingestion path.

The pause/resume engine itself (the implementations behind
`Store::set_pause_execution_no_unwind`, `Caller::pause_execution`,
`Store::is_execution_paused`, `Store::capture_execution_handle`,
`Instance::get_execution_handle`, `ExecutionHandle::{paused_state, resume}`)
is not among the provided source files: only its tests
(`crates/wasmtime/tests/pause_resume.rs`), a demo
(`examples/caller_pause_demo.rs`) and the codegen collaborator are.  The
engine is therefore modelled from the specification (spec.md §3, §4, §5, §7),
and the guest programs of the tests and the demo are embedded literally so the
tests' observable assertions can be settled against the model.

The rwasm path `build_rwasm_artifacts` IS present in the sources
(`crates/wasmtime/src/rwasm.rs`) and is embedded directly at the end.
-/

namespace PauseResume

/-- i32 values are 32-bit patterns; arithmetic is taken mod 2^32. -/
def wordMod : Nat := 4294967296

/-- Instructions of the embedded guest (wat) programs that the pause/resume
tests exercise: constants, `i32.add`, locals, guest-to-guest calls, and calls
to imported host functions. -/
inductive Instr where
  | iconst (n : Nat)
  | iadd
  | localGet (i : Nat)
  | localSet (i : Nat)
  | callGuest (f : Nat)
  | callHost (h : Nat)
deriving Repr, DecidableEq

/-- Modelled from the spec: the host functions of the tests and the demo.
`pauseOnFirst results` is the host closure that calls
`caller.pause_execution()` on its first invocation and returns `results` on
every later invocation; `pure results` is a host function that always returns
`results` (the tests' `increment_counter`, whose counter is its call count). -/
inductive HostBehavior where
  | pauseOnFirst (results : List Nat)
  | pure (results : List Nat)
deriving Repr, DecidableEq

/-- One activation record of a guest function: program counter, locals and
operand stack (head of `opstack` is the top of the stack). -/
structure GuestFrame where
  funcIdx : Nat
  pc : Nat
  locals : List Nat
  opstack : List Nat
deriving Repr, DecidableEq

/-- The native call chain of the current execution, innermost frame first.
This is the frame memory that the spec says stays inside the context while
paused (the snapshot remembers where, not what). -/
abbrev Cont := List GuestFrame

/-- Diagnostic call-stack entry of a `PausedState` (spec §3): optional
symbolic name plus an in-function offset. -/
structure CallFrameInfo where
  name : Option String
  offset : Nat
deriving Repr, DecidableEq

/-- Modelled from the spec (§3): the immutable snapshot value. `pc` is the
resume address and `fp` the frame base (0 reserved as invalid); pausing from a
host function records the sentinel pair `pc = 1, fp = 1` as printed by
`examples/caller_pause_demo.rs`. -/
structure PausedState where
  pc : Nat
  fp : Nat
  remaining_budget : Option Nat
  call_stack : List CallFrameInfo
deriving Repr, DecidableEq

/-- Modelled from the spec (§3): the Pause Registry entry pairs the
`PausedState` with the identity of the instance whose call produced it, the
saved continuation (the frame memory, which stays inside the context), and an
identity token `entryId` realising the spec's identity (not value) check. -/
structure RegistryEntry where
  state : PausedState
  instance_id : Nat
  cont : Cont
  entryId : Nat
deriving Repr, DecidableEq

/-- Modelled from the spec: the execution context ("Store"): the capture-mode
toggle set by `set_pause_execution_no_unwind`, the optional metering budget
(fuel), the Pause Registry (at most one entry), a counter minting identity
tokens, and the per-host-function call counts of the test closures. -/
structure Store where
  pauseNoUnwind : Bool
  fuel : Option Nat
  registry : Option RegistryEntry
  handleCounter : Nat
  hostCalls : List Nat
deriving Repr, DecidableEq

/-- Modelled from the spec (§3): an Execution Handle wraps one `PausedState`
plus the identity token of the registry entry it was drawn from. -/
structure ExecutionHandle where
  state : PausedState
  entryId : Nat
deriving Repr, DecidableEq

/-- A guest function: number of (zero-initialised) locals and its body. -/
structure GuestFunc where
  numLocals : Nat
  body : List Instr
deriving Repr, DecidableEq

/-- A guest module: imported host functions and defined guest functions. -/
structure WasmModule where
  hosts : List HostBehavior
  funcs : List GuestFunc
deriving Repr, DecidableEq

/-- Outcome of running a continuation: normal completion with result values,
suspension (registry filled, `SuspendedSignal` to be surfaced), a trap, or
exhaustion of the structural gas bound of the embedding. -/
inductive RunResult where
  | done (vals : List Nat) (s : Store)
  | paused (s : Store)
  | trapped (s : Store)
  | outOfGas (s : Store)
deriving Repr, DecidableEq

/-- The store carried by a `RunResult`. -/
def storeOfRun : RunResult → Store
  | .done _ s => s
  | .paused s => s
  | .trapped s => s
  | .outOfGas s => s

/-- Result of one small step: either a new configuration or a halt. -/
inductive StepRes where
  | next (s : Store) (fs : Cont)
  | halt (r : RunResult)
deriving Repr, DecidableEq

/-- Metering: one unit of fuel is consumed per instruction when fuel is
enabled; `none` (no fuel left) aborts with an out-of-fuel trap. -/
def chargeFuel : Option Nat → Option (Option Nat)
  | none => some none
  | some 0 => none
  | some (n + 1) => some (some n)

/-- Remaining metering budget of a store, 0 when metering is disabled. -/
def budget (s : Store) : Nat := s.fuel.getD 0

/-- Diagnostic call-stack listing, innermost to outermost (spec §4.2); the
embedded modules carry no symbolic names. -/
def diagStack (fs : Cont) : List CallFrameInfo :=
  fs.map (fun fr => { name := none, offset := fr.pc })

/-- Modelled from the spec (§4.1–§4.3): one small step of guest execution.
A `callHost` to a pausing host on its first invocation performs the
request-suspend → capture → register cycle: the `PausedState` records the
host-pause sentinel addresses `pc = 1, fp = 1`, samples the remaining budget
without mutating it, and the registry keeps the continuation parked at the
suspending call so that resume re-invokes the host function (the guest prefix
is never re-run).  Without capture mode the suspension degrades to a
non-resumable abort. -/
def step (m : WasmModule) (inst : Nat) (s : Store) (fs : Cont) : StepRes :=
  match fs with
  | [] => .halt (.trapped s)
  | f :: rest =>
    match m.funcs.get? f.funcIdx with
    | none => .halt (.trapped s)
    | some fn =>
      match fn.body.get? f.pc with
      | none =>
        match rest with
        | [] => .halt (.done f.opstack s)
        | caller :: rest' =>
          .next s ({ caller with opstack := f.opstack ++ caller.opstack } :: rest')
      | some ins =>
        match chargeFuel s.fuel with
        | none => .halt (.trapped s)
        | some fuel' =>
          let s1 : Store := { s with fuel := fuel' }
          match ins with
          | .iconst n =>
            .next s1 ({ f with pc := f.pc + 1, opstack := (n % wordMod) :: f.opstack } :: rest)
          | .iadd =>
            match f.opstack with
            | b :: a :: tl =>
              .next s1 ({ f with pc := f.pc + 1, opstack := ((a + b) % wordMod) :: tl } :: rest)
            | _ => .halt (.trapped s1)
          | .localGet i =>
            match f.locals.get? i with
            | some v => .next s1 ({ f with pc := f.pc + 1, opstack := v :: f.opstack } :: rest)
            | none => .halt (.trapped s1)
          | .localSet i =>
            match f.opstack with
            | v :: tl =>
              match f.locals.get? i with
              | some _ =>
                .next s1 ({ f with pc := f.pc + 1, locals := f.locals.set i v, opstack := tl } :: rest)
              | none => .halt (.trapped s1)
            | [] => .halt (.trapped s1)
          | .callGuest g =>
            match m.funcs.get? g with
            | some fn2 =>
              .next s1 ({ funcIdx := g, pc := 0, locals := List.replicate fn2.numLocals 0,
                          opstack := [] } :: { f with pc := f.pc + 1 } :: rest)
            | none => .halt (.trapped s1)
          | .callHost hi =>
            match m.hosts.get? hi with
            | none => .halt (.trapped s1)
            | some hb =>
              let s2 : Store :=
                { s1 with hostCalls := s1.hostCalls.set hi (s1.hostCalls.getD hi 0 + 1) }
              match hb with
              | .pure results =>
                .next s2 ({ f with pc := f.pc + 1, opstack := results.reverse ++ f.opstack } :: rest)
              | .pauseOnFirst results =>
                match s.hostCalls.getD hi 0 with
                | 0 =>
                  match s.pauseNoUnwind with
                  | false => .halt (.trapped s2)
                  | true =>
                    match s.registry with
                    | some _ => .halt (.trapped s2)
                    | none =>
                      .halt (.paused { s2 with
                        registry := some {
                          state := { pc := 1, fp := 1, remaining_budget := s2.fuel,
                                     call_stack := diagStack (f :: rest) },
                          instance_id := inst,
                          cont := f :: rest,
                          entryId := s2.handleCounter },
                        handleCounter := s2.handleCounter + 1 })
                | _ + 1 =>
                  .next s2 ({ f with pc := f.pc + 1, opstack := results.reverse ++ f.opstack } :: rest)

/-- Run a continuation to completion, suspension or trap, under a structural
gas bound (the bound is an artifact of the embedding, not of the design). -/
def runCont (m : WasmModule) (inst : Nat) : Nat → Store → Cont → RunResult
  | 0, s, _ => .outOfGas s
  | g + 1, s, fs =>
    match step m inst s fs with
    | .halt r => r
    | .next s' fs' => runCont m inst g s' fs'

/-- Outcome of a top-level typed call: normal result values, the distinguished
"execution paused" signal (not an ordinary guest trap), an ordinary trap, or
gas exhaustion of the embedding. -/
inductive CallOutcome where
  | ok (vals : List Nat)
  | errSuspended
  | errTrap
  | errOutOfGas
deriving Repr, DecidableEq

/-- How a finished run surfaces at the top-level call API: suspension is
reported as the distinguished `errSuspended` signal, distinct from `errTrap`. -/
def finishRun : RunResult → CallOutcome × Store
  | .done vals s => (.ok vals, s)
  | .paused s => (.errSuspended, s)
  | .trapped s => (.errTrap, s)
  | .outOfGas s => (.errOutOfGas, s)

/-- Modelled from the spec: `TypedFunc::call` on an exported function of
instance `inst`: set up a fresh frame with zero-initialised locals and run. -/
def callFunc (m : WasmModule) (inst : Nat) (fi : Nat) (gas : Nat) (s : Store) :
    CallOutcome × Store :=
  match m.funcs.get? fi with
  | none => (.errTrap, s)
  | some fn =>
    finishRun (runCont m inst gas s
      [{ funcIdx := fi, pc := 0, locals := List.replicate fn.numLocals 0, opstack := [] }])

/-- Modelled from the spec: `Store::is_execution_paused`, true iff the Pause
Registry holds an entry. -/
def is_execution_paused (s : Store) : Bool := s.registry.isSome

/-- Modelled from the spec: `Store::capture_execution_handle`, context-scoped:
mints a handle for the live registry entry, if any. -/
def capture_execution_handle (s : Store) : Option ExecutionHandle :=
  s.registry.map (fun e => { state := e.state, entryId := e.entryId })

/-- Modelled from the spec: `Instance::get_execution_handle`, instance-scoped:
yields a handle only when the registry entry was produced by this instance's
call (`take_for` of §4.3). -/
def get_execution_handle (instId : Nat) (s : Store) : Option ExecutionHandle :=
  match s.registry with
  | some e => if e.instance_id = instId then
      some { state := e.state, entryId := e.entryId }
    else none
  | none => none

/-- Modelled from the spec: `Store::clear_paused_state`, abandoning the
capability without resuming. -/
def clear_paused_state (s : Store) : Store := { s with registry := none }

/-- Modelled from the spec: `ExecutionHandle::paused_state`, read-only. -/
def paused_state (h : ExecutionHandle) : PausedState := h.state

/-- Modelled from the spec (§4.4): `ExecutionHandle::can_resume`, true iff the
addresses are not both zero and the handle is still the one recorded as live
in the registry (identity token check). -/
def can_resume (h : ExecutionHandle) (s : Store) : Bool :=
  (h.state.pc != 0 || h.state.fp != 0) &&
    match s.registry with
    | some e => h.entryId == e.entryId
    | none => false

/-- Declared result arity of a host function in the embedded modules. -/
def hostArity : HostBehavior → Nat
  | .pauseOnFirst results => results.length
  | .pure results => results.length

/-- Modelled from the spec (§4.4): inject supplied override values as the
return values of the host call that triggered the suspension: the parked
innermost frame is advanced past the suspending `callHost` and the override
values (up to the host's declared result arity) are pushed in its place. -/
def injectOverride (m : WasmModule) (ov : List Nat) : Cont → Option Cont
  | [] => none
  | f :: rest =>
    match m.funcs.get? f.funcIdx with
    | none => none
    | some fn =>
      match fn.body.get? f.pc with
      | some (.callHost hi) =>
        match m.hosts.get? hi with
        | some hb =>
          some ({ f with
                  pc := f.pc + 1,
                  opstack := (ov.take (hostArity hb)).reverse ++ f.opstack } :: rest)
        | none => none
      | _ => none

/-- Outcome of `resume`: final guest values, rejection of an invalid handle
(`InvalidResumeState`), a fresh suspension of the continued execution, a trap
raised after resuming, or gas exhaustion of the embedding. -/
inductive ResumeOutcome where
  | ok (vals : List Nat)
  | errInvalidResumeState
  | errSuspended
  | errTrap
  | errOutOfGas
deriving Repr, DecidableEq

/-- How a finished continuation surfaces at the `resume` API. -/
def finishResume : RunResult → ResumeOutcome × Store
  | .done vals s => (.ok vals, s)
  | .paused s => (.errSuspended, s)
  | .trapped s => (.errTrap, s)
  | .outOfGas s => (.errOutOfGas, s)

/-- Modelled from the spec (§4.4, §7): `ExecutionHandle::resume`.  Validation
first: the handle must carry non-zero addresses and be the one currently
recorded in the registry (identity check); on validation failure the call
fails with `InvalidResumeState` and the context, registry entry included, is
left untouched.  On success the entry is removed before control transfer,
then execution continues from the saved continuation; with no override values
the suspending host call is re-invoked (its real return value flows into the
guest), with override values those values replace the host call's results. -/
def resume (m : WasmModule) (gas : Nat) (h : ExecutionHandle) (ov : Option (List Nat))
    (s : Store) : ResumeOutcome × Store :=
  match s.registry with
  | none => (.errInvalidResumeState, s)
  | some e =>
    if (h.state.pc != 0 || h.state.fp != 0) && h.entryId == e.entryId then
      let s1 : Store := { s with registry := none }
      match (match ov with
             | none => some e.cont
             | some vals => injectOverride m vals e.cont) with
      | none => (.errTrap, s1)
      | some c => finishResume (runCont m e.instance_id gas s1 c)
    else (.errInvalidResumeState, s)

/-- A fresh store: capture-mode toggle, optional fuel, empty registry, and
zeroed call counts for `nh` host functions. -/
def initStore (pm : Bool) (fl : Option Nat) (nh : Nat) : Store :=
  { pauseNoUnwind := pm, fuel := fl, registry := none, handleCounter := 0,
    hostCalls := List.replicate nh 0 }

/-! The guest modules of the tests and the demo, embedded from their wat
sources. -/

/-- `test_basic_pause_resume`: host `pause : () -> ()` pauses on first call;
`test_func` is `call $pause; i32.const 42`. -/
def basicModule : WasmModule :=
  { hosts := [.pauseOnFirst []],
    funcs := [{ numLocals := 0, body := [.callHost 0, .iconst 42] }] }

/-- `test_instance_specific_execution_handles`: host
`pause_func : () -> i32` pauses first, later returns 42; `pausable_func` is
`i32.const 100; call $pause; i32.add`. -/
def instModule : WasmModule :=
  { hosts := [.pauseOnFirst [42]],
    funcs := [{ numLocals := 0, body := [.iconst 100, .callHost 0, .iadd] }] }

/-- `test_function_restart_analysis`: host 0 `pause_and_return : () -> i32`
pauses first, later returns 999; host 1 `increment_counter : () -> ()` only
counts; `test_restart` is `call $increment; i32.const 100; i32.const 200;
i32.add; call $pause; i32.add`. -/
def restartModule : WasmModule :=
  { hosts := [.pauseOnFirst [999], .pure []],
    funcs := [{ numLocals := 0,
                body := [.callHost 1, .iconst 100, .iconst 200, .iadd, .callHost 0, .iadd] }] }

/-- `test_register_state_analysis`: host `pause_and_return : () -> i32`
pauses first, later returns 42; `test_locals` sets locals a, b, c to 100,
200, 300, d to a + b, pauses, then computes d + host + c. -/
def localsModule : WasmModule :=
  { hosts := [.pauseOnFirst [42]],
    funcs := [{ numLocals := 4,
                body := [.iconst 100, .localSet 0, .iconst 200, .localSet 1,
                         .iconst 300, .localSet 2, .localGet 0, .localGet 1, .iadd,
                         .localSet 3, .callHost 0, .localGet 3, .iadd,
                         .localGet 2, .iadd] }] }

/-- `test_wasm_stack_analysis`: host `pause : () -> ()` pauses on first call;
`test_stack` pushes 111, 222, 333, 444, pauses, then adds three times. -/
def stackModule : WasmModule :=
  { hosts := [.pauseOnFirst []],
    funcs := [{ numLocals := 0,
                body := [.iconst 111, .iconst 222, .iconst 333, .iconst 444,
                         .callHost 0, .iadd, .iadd, .iadd] }] }

/-- `caller_pause_demo`: host `pause : () -> ()` pauses on first call;
function 0 is `$helper_function` (`call $pause; i32.const 200`), function 1
is the exported `call_pause` (`call $helper_function; i32.const 100;
i32.add; return`). -/
def demoModule : WasmModule :=
  { hosts := [.pauseOnFirst []],
    funcs := [{ numLocals := 0, body := [.callHost 0, .iconst 200] },
              { numLocals := 0, body := [.callGuest 0, .iconst 100, .iadd] }] }

/-! Concrete stores and handles of the embedded test scenarios.  Each
`...Paused` store is the store returned by the suspended top-level call, and
each `...Handle` is the handle the registry mints for it (checked by
`decide` in the theorems below). -/

/-- Fresh store of `test_basic_pause_resume` (fuel 1000, capture mode on). -/
def basicStore0 : Store := initStore true (some 1000) 1

/-- Store after the suspended first call of `test_basic_pause_resume`. -/
def basicPaused : Store := (callFunc basicModule 1 0 64 basicStore0).2

/-- The handle minted for the basic test's suspension. -/
def basicHandle : ExecutionHandle :=
  { state := { pc := 1, fp := 1, remaining_budget := some 999,
               call_stack := [{ name := none, offset := 0 }] }, entryId := 0 }

/-- Fresh store of `test_instance_specific_execution_handles` (no fuel). -/
def instStore0 : Store := initStore true none 1

/-- Store after instance 1's suspended call in the instance-handle test. -/
def instPaused : Store := (callFunc instModule 1 0 64 instStore0).2

/-- The handle minted for the instance-handle test's suspension. -/
def instHandle : ExecutionHandle :=
  { state := { pc := 1, fp := 1, remaining_budget := none,
               call_stack := [{ name := none, offset := 1 }] }, entryId := 0 }

/-- Store after the successful resume in the instance-handle test. -/
def instResumed : Store := (resume instModule 64 instHandle none instPaused).2

/-- A deliberately invalid handle with both addresses zero (the negative
test value the spec's misuse path injects); its `entryId` 0 even matches the
live entry of `instPaused`, so only the zero addresses make it invalid. -/
def zeroHandle : ExecutionHandle :=
  { state := { pc := 0, fp := 0, remaining_budget := none, call_stack := [] }, entryId := 0 }

/-- Store after the suspended call of `test_function_restart_analysis`. -/
def restartPaused : Store := (callFunc restartModule 1 0 64 (initStore true none 2)).2

/-- The handle minted for the restart test's suspension. -/
def restartHandle : ExecutionHandle :=
  { state := { pc := 1, fp := 1, remaining_budget := none,
               call_stack := [{ name := none, offset := 4 }] }, entryId := 0 }

/-- Store after the suspended call of `test_wasm_stack_analysis`. -/
def stackPaused : Store := (callFunc stackModule 1 0 64 (initStore true none 1)).2

/-- The handle minted for the operand-stack test's suspension. -/
def stackHandle : ExecutionHandle :=
  { state := { pc := 1, fp := 1, remaining_budget := none,
               call_stack := [{ name := none, offset := 4 }] }, entryId := 0 }

/-- Store after the suspended call of `test_register_state_analysis`. -/
def localsPaused : Store := (callFunc localsModule 1 0 64 (initStore true none 1)).2

/-- The handle minted for the locals test's suspension. -/
def localsHandle : ExecutionHandle :=
  { state := { pc := 1, fp := 1, remaining_budget := none,
               call_stack := [{ name := none, offset := 10 }] }, entryId := 0 }

/-- Fresh store of `caller_pause_demo` (fuel 1000, capture mode on). -/
def demoStore0 : Store := initStore true (some 1000) 1

/-- Store after the suspended call of `caller_pause_demo` (the pause happens
inside `$helper_function`, two guest frames deep). -/
def demoPaused : Store := (callFunc demoModule 1 1 64 demoStore0).2

/-- The handle minted for the demo's suspension: the sentinel `pc = 1,
fp = 1` of a pause requested from inside a host function. -/
def demoHandle : ExecutionHandle :=
  { state := { pc := 1, fp := 1, remaining_budget := some 998,
               call_stack := [{ name := none, offset := 0 }, { name := none, offset := 1 }] },
    entryId := 0 }

end PauseResume

namespace Rwasm

/-! Embedding of `crates/wasmtime/src/rwasm.rs`, which is present in the
sources.  Rust panics are modelled as a distinguished outcome, since a panic
terminates the program instead of returning. -/

/-- Outcome of running a Rust expression that may panic: a returned value or
a program-terminating panic with its message. -/
inductive PanicOr (α : Type) where
  | ret (a : α)
  | panicked (msg : String)
deriving Repr, DecidableEq

/-- Rust `Result`. -/
inductive RustResult (ε α : Type) where
  | ok (a : α)
  | err (e : ε)
deriving Repr, DecidableEq

/-- The `rwasm_executor::RwasmModule2` value built from the input bytes; its
internals are irrelevant to `build_rwasm_artifacts`, which discards the
compilation result. -/
structure RwasmModule2 where
  bytes : List Nat
deriving Repr, DecidableEq

/-- `RwasmModule2::new`. -/
def RwasmModule2.new (wasm : List Nat) : RwasmModule2 := ⟨wasm⟩

/-- Stand-in for the artifact pair `(T, Option (CompiledModuleInfo,
ModuleTypes))` that `build_rwasm_artifacts` is declared to return; no branch
of the function ever constructs one. -/
structure Artifacts where
  obj : List Nat
deriving Repr, DecidableEq

/-- Embedding of `build_rwasm_artifacts` (crates/wasmtime/src/rwasm.rs:7-21):
it builds `RwasmModule2::new(wasm)`, discards the result of
`compiler.compile_rwasm_function(rwasm_module)` with `let _ = ...`, and then
unconditionally executes `panic!("rwasm not implemented yet")`.  The
discarded compilation (whose own body lives in the winch collaborator and
could itself panic) is abstracted as the function argument
`compile_rwasm_function`; the object state of type `T::State` is the type
parameter `σ`.  If the discarded compilation returns at all — normally or
with an `Err` — control reaches the unconditional panic. -/
def build_rwasm_artifacts (σ : Type)
    (compile_rwasm_function : RwasmModule2 → PanicOr (RustResult String Unit))
    (wasm : List Nat) (dwarf_package : Option (List Nat)) (obj_state : σ) :
    PanicOr (RustResult String Artifacts) :=
  match compile_rwasm_function (RwasmModule2.new wasm) with
  | .panicked msg => .panicked msg
  | .ret _ => .panicked "rwasm not implemented yet"

end Rwasm

namespace PauseResume

/-! General lemmas about the model: the pause machinery only reads the
budget, registry changes are confined to the capture step, and a capture
always records the sentinel (non-zero) addresses together with the identity
of the pausing instance. -/

theorem chargeFuel_le (fl fl' : Option Nat) (h : chargeFuel fl = some fl') :
    fl'.getD 0 ≤ fl.getD 0 := by
  cases fl with
  | none =>
    simp only [chargeFuel, Option.some.injEq] at h
    subst h; exact le_refl _
  | some n =>
    cases n with
    | zero => simp [chargeFuel] at h
    | succ k =>
      simp only [chargeFuel, Option.some.injEq] at h
      subst h; simp [Option.getD]

theorem step_next_facts {m : WasmModule} {inst : Nat} {s s' : Store} {fs fs' : Cont}
    (h : step m inst s fs = .next s' fs') :
    s'.registry = s.registry ∧ s'.pauseNoUnwind = s.pauseNoUnwind ∧ budget s' ≤ budget s := by
  unfold step at h
  repeat' split at h
  all_goals first
    | exact StepRes.noConfusion h
    | (cases h <;> exact ⟨rfl, rfl, le_refl _⟩)
    | (cases h <;> exact ⟨rfl, rfl, chargeFuel_le _ _ (by assumption)⟩)

theorem step_halt_budget {m : WasmModule} {inst : Nat} {s : Store} {fs : Cont} {r : RunResult}
    (h : step m inst s fs = .halt r) : budget (storeOfRun r) ≤ budget s := by
  unfold step at h
  repeat' split at h
  all_goals first
    | exact StepRes.noConfusion h
    | (cases h <;> exact le_refl _)
    | (cases h <;> exact chargeFuel_le _ _ (by assumption))

theorem step_done_registry {m : WasmModule} {inst : Nat} {s s' : Store} {fs : Cont}
    {v : List Nat} (h : step m inst s fs = .halt (.done v s')) : s'.registry = s.registry := by
  unfold step at h
  repeat' split at h
  all_goals first
    | exact StepRes.noConfusion h
    | (cases h <;> rfl)

theorem step_paused_entry {m : WasmModule} {inst : Nat} {s s' : Store} {fs : Cont}
    (h : step m inst s fs = .halt (.paused s')) :
    ∃ e, s'.registry = some e ∧ e.instance_id = inst ∧
      e.state.pc = 1 ∧ e.state.fp = 1 ∧ e.state.remaining_budget = s'.fuel := by
  unfold step at h
  repeat' split at h
  all_goals first
    | exact StepRes.noConfusion h
    | (cases h <;> exact ⟨_, rfl, rfl, rfl, rfl, rfl⟩)

theorem runCont_budget (m : WasmModule) (inst : Nat) :
    ∀ (g : Nat) (s : Store) (fs : Cont),
      budget (storeOfRun (runCont m inst g s fs)) ≤ budget s := by
  intro g
  induction g with
  | zero => intro s fs; exact le_refl _
  | succ n ih =>
    intro s fs
    cases hstep : step m inst s fs with
    | halt r =>
      simp only [runCont, hstep]
      exact step_halt_budget hstep
    | next s2 fs2 =>
      simp only [runCont, hstep]
      exact le_trans (ih s2 fs2) (step_next_facts hstep).2.2

theorem runCont_done_registry (m : WasmModule) (inst : Nat) :
    ∀ (g : Nat) (s : Store) (fs : Cont) (v : List Nat) (s' : Store),
      runCont m inst g s fs = .done v s' → s'.registry = s.registry := by
  intro g
  induction g with
  | zero => intro s fs v s' h; exact absurd h (by simp [runCont])
  | succ n ih =>
    intro s fs v s' h
    cases hstep : step m inst s fs with
    | halt r =>
      simp only [runCont, hstep] at h
      subst h
      exact step_done_registry hstep
    | next s2 fs2 =>
      simp only [runCont, hstep] at h
      exact (ih s2 fs2 v s' h).trans (step_next_facts hstep).1

theorem runCont_paused_entry (m : WasmModule) (inst : Nat) :
    ∀ (g : Nat) (s : Store) (fs : Cont) (s' : Store),
      runCont m inst g s fs = .paused s' →
      ∃ e, s'.registry = some e ∧ e.instance_id = inst ∧
        e.state.pc = 1 ∧ e.state.fp = 1 ∧ e.state.remaining_budget = s'.fuel := by
  intro g
  induction g with
  | zero => intro s fs s' h; exact absurd h (by simp [runCont])
  | succ n ih =>
    intro s fs s' h
    cases hstep : step m inst s fs with
    | halt r =>
      simp only [runCont, hstep] at h
      subst h
      exact step_paused_entry hstep
    | next s2 fs2 =>
      simp only [runCont, hstep] at h
      exact ih s2 fs2 s' h

theorem finishRun_snd (r : RunResult) : (finishRun r).2 = storeOfRun r := by
  cases r <;> rfl

theorem finishResume_snd (r : RunResult) : (finishResume r).2 = storeOfRun r := by
  cases r <;> rfl

theorem finishRun_suspended_iff (r : RunResult) (s' : Store) :
    finishRun r = (.errSuspended, s') ↔ r = .paused s' := by
  cases r <;> simp [finishRun]

theorem finishResume_ok_iff (r : RunResult) (vals : List Nat) (s' : Store) :
    finishResume r = (.ok vals, s') ↔ r = .done vals s' := by
  cases r <;> simp [finishResume]

theorem finishResume_suspended_iff (r : RunResult) (s' : Store) :
    finishResume r = (.errSuspended, s') ↔ r = .paused s' := by
  cases r <;> simp [finishResume]

theorem callFunc_budget (m : WasmModule) (inst fi gas : Nat) (s : Store) :
    budget (callFunc m inst fi gas s).2 ≤ budget s := by
  unfold callFunc
  cases hf : m.funcs.get? fi with
  | none => exact le_refl _
  | some fn =>
    rw [finishRun_snd]
    exact runCont_budget m inst gas s _

theorem callFunc_suspended_entry (m : WasmModule) (inst fi gas : Nat) (s s' : Store)
    (h : callFunc m inst fi gas s = (.errSuspended, s')) :
    ∃ e, s'.registry = some e ∧ e.instance_id = inst ∧
      e.state.pc = 1 ∧ e.state.fp = 1 ∧ e.state.remaining_budget = s'.fuel := by
  unfold callFunc at h
  cases hf : m.funcs.get? fi with
  | none => rw [hf] at h; exact absurd h (by simp)
  | some fn =>
    rw [hf] at h
    exact runCont_paused_entry m inst gas s _ s' ((finishRun_suspended_iff _ _).mp h)

theorem resume_invalid (m : WasmModule) (gas : Nat) (h : ExecutionHandle)
    (ov : Option (List Nat)) (s : Store) (hcr : can_resume h s = false) :
    resume m gas h ov s = (.errInvalidResumeState, s) := by
  unfold can_resume at hcr
  unfold resume
  cases hreg : s.registry with
  | none => rfl
  | some e =>
    rw [hreg] at hcr
    simp only [hcr]
    rfl

theorem resume_ok_registry (m : WasmModule) (gas : Nat) (h : ExecutionHandle)
    (ov : Option (List Nat)) (s : Store) (vals : List Nat) (s' : Store)
    (hres : resume m gas h ov s = (.ok vals, s')) : s'.registry = none := by
  unfold resume at hres
  split at hres
  · exact absurd hres (by simp)
  · split at hres
    · split at hres
      · exact absurd hres (by simp)
      · have hrun := (finishResume_ok_iff _ _ _).mp hres
        exact runCont_done_registry _ _ gas _ _ vals s' hrun
    · exact absurd hres (by simp)

theorem resume_suspended_entry (m : WasmModule) (gas : Nat) (h : ExecutionHandle)
    (ov : Option (List Nat)) (s s' : Store)
    (hres : resume m gas h ov s = (.errSuspended, s')) :
    ∃ e, s'.registry = some e ∧ e.state.pc = 1 ∧ e.state.fp = 1 ∧
      e.state.remaining_budget = s'.fuel := by
  unfold resume at hres
  split at hres
  · exact absurd hres (by simp)
  · split at hres
    · split at hres
      · exact absurd hres (by simp)
      · have hrun := (finishResume_suspended_iff _ _).mp hres
        obtain ⟨e, hreg, _, hpc, hfp, hbud⟩ := runCont_paused_entry _ _ gas _ _ s' hrun
        exact ⟨e, hreg, hpc, hfp, hbud⟩
    · exact absurd hres (by simp)

theorem resume_budget (m : WasmModule) (gas : Nat) (h : ExecutionHandle)
    (ov : Option (List Nat)) (s : Store) :
    budget (resume m gas h ov s).2 ≤ budget s := by
  unfold resume
  split
  · exact le_refl _
  · split
    · split
      · exact le_refl _
      · rw [finishResume_snd]
        exact runCont_budget _ _ gas _ _
    · exact le_refl _

/-! Claim theorems. -/

/-- C1: guest state set before the suspending call is preserved across
pause/resume: the operand-stack test suspends with 111, 222, 333, 444 pushed
and resuming completes the three additions to 1110; the locals test suspends
with locals 100, 200, 300 and the computed partial sum 300, and resuming
reads them back to total 642 together with the host-provided 42. -/
theorem stack_and_locals_preserved_across_pause_resume :
    ((callFunc stackModule 1 0 64 (initStore true none 1)).1 = .errSuspended ∧
      capture_execution_handle stackPaused = some stackHandle ∧
      (resume stackModule 64 stackHandle none stackPaused).1 = .ok [1110]) ∧
    ((callFunc localsModule 1 0 64 (initStore true none 1)).1 = .errSuspended ∧
      capture_execution_handle localsPaused = some localsHandle ∧
      (resume localsModule 64 localsHandle none localsPaused).1 = .ok [642]) := by
  decide

/-- C2: across one pause/resume cycle of the restart test, the guest body
before the suspending call runs exactly once (the `increment_counter` host
count — index 1 — is 1 at the pause and still 1 after the resume), the host
function that triggered the pause (index 0) is invoked exactly twice, and
the final result is 1299 = 300 (computed before the pause) + 999 (returned
by the second host invocation). -/
theorem guest_body_once_host_twice :
    (callFunc restartModule 1 0 64 (initStore true none 2)).1 = .errSuspended ∧
    restartPaused.hostCalls = [1, 1] ∧
    capture_execution_handle restartPaused = some restartHandle ∧
    (resume restartModule 64 restartHandle none restartPaused).1 = .ok [1299] ∧
    (resume restartModule 64 restartHandle none restartPaused).2.hostCalls = [2, 1] := by
  decide

/-- C3: with capture mode enabled, `is_execution_paused` is false before the
triggering top-level call; the call returns the distinguished paused signal
`errSuspended` (a constructor distinct from a normal `.ok` result and from
the ordinary guest-trap `errTrap`); `is_execution_paused` is true
immediately after; and after a successful resume, which returns the declared
result value 42, it is false again. -/
theorem paused_flag_and_signal_lifecycle :
    is_execution_paused basicStore0 = false ∧
    (callFunc basicModule 1 0 64 basicStore0).1 = .errSuspended ∧
    is_execution_paused basicPaused = true ∧
    capture_execution_handle basicPaused = some basicHandle ∧
    (resume basicModule 64 basicHandle none basicPaused).1 = .ok [42] ∧
    is_execution_paused (resume basicModule 64 basicHandle none basicPaused).2 = false := by
  decide

/-- C4: an execution handle is single-use: after a resume succeeds, every
further resume attempt on that store (the same handle included) fails with
`InvalidResumeState`, every previously obtained handle for the suspension
reports `can_resume = false`, and neither the store nor any instance yields
a live handle. -/
theorem handle_single_use (m : WasmModule) (gas : Nat) (h : ExecutionHandle)
    (ov : Option (List Nat)) (s : Store) (vals : List Nat) (s' : Store)
    (hres : resume m gas h ov s = (.ok vals, s')) :
    (∀ (m' : WasmModule) (gas' : Nat) (h' : ExecutionHandle) (ov' : Option (List Nat)),
        resume m' gas' h' ov' s' = (.errInvalidResumeState, s')) ∧
    (∀ h' : ExecutionHandle, can_resume h' s' = false) ∧
    capture_execution_handle s' = none ∧
    (∀ i : Nat, get_execution_handle i s' = none) := by
  have hnone := resume_ok_registry m gas h ov s vals s' hres
  refine ⟨?_, ?_, ?_, ?_⟩
  · intro m' gas' h' ov'
    unfold resume
    rw [hnone]
  · intro h'
    unfold can_resume
    rw [hnone]
    simp
  · unfold capture_execution_handle
    rw [hnone]
    rfl
  · intro i
    unfold get_execution_handle
    rw [hnone]

/-- Witness for C4: the instance-handle scenario resumed once; the second
resume on the very same handle fails and no live handle remains. -/
theorem handle_single_use_witness :
    resume instModule 64 instHandle none instResumed = (.errInvalidResumeState, instResumed) ∧
    can_resume instHandle instResumed = false ∧
    capture_execution_handle instResumed = none ∧
    get_execution_handle 1 instResumed = none := by
  have happ :=
    handle_single_use instModule 64 instHandle none instPaused [142] instResumed (by decide)
  exact ⟨happ.1 instModule 64 instHandle none, happ.2.1 instHandle, happ.2.2.1, happ.2.2.2 1⟩

/-- C5: execution handles are instance-scoped: when a call made through
instance `A` paused, `A`'s lookup yields a handle while the lookup of every
other instance `B ≠ A` sharing the same context yields absent. -/
theorem instance_scoped_handles (m : WasmModule) (A fi gas : Nat) (s s' : Store)
    (hc : callFunc m A fi gas s = (.errSuspended, s')) :
    (get_execution_handle A s').isSome = true ∧
    ∀ B : Nat, B ≠ A → get_execution_handle B s' = none := by
  obtain ⟨e, hreg, hinst, -, -, -⟩ := callFunc_suspended_entry m A fi gas s s' hc
  constructor
  · simp only [get_execution_handle, hreg]
    rw [hinst]
    simp
  · intro B hBA
    simp only [get_execution_handle, hreg]
    rw [hinst]
    simp [Ne.symm hBA]

/-- Witness for C5: in the two-instance test, instance 1 paused; its lookup
yields a handle and instance 2's lookup is absent. -/
theorem instance_scoped_handles_witness :
    (get_execution_handle 1 instPaused).isSome = true ∧
    get_execution_handle 2 instPaused = none := by
  have happ := instance_scoped_handles instModule 1 0 64 instStore0 instPaused (by decide)
  exact ⟨happ.1, happ.2 2 (by decide)⟩

/-- C6: `resume` on an invalid handle — one whose addresses are both zero,
or one that is stale, consumed, or not the handle currently recorded in the
registry (exactly the cases where `can_resume` is false) — always fails
deterministically with `InvalidResumeState`, transferring no control and
leaving the context, registry entry included, completely untouched; and a
handle built from `resume_address = 0, frame_base = 0` is never resumable on
any context. -/
theorem invalid_resume_rejected :
    (∀ (m : WasmModule) (gas : Nat) (h : ExecutionHandle) (ov : Option (List Nat)) (s : Store),
        can_resume h s = false → resume m gas h ov s = (.errInvalidResumeState, s)) ∧
    (∀ (h : ExecutionHandle) (s : Store), h.state.pc = 0 → h.state.fp = 0 →
        can_resume h s = false) := by
  constructor
  · exact fun m gas h ov s hcr => resume_invalid m gas h ov s hcr
  · intro h s hpc hfp
    unfold can_resume
    rw [hpc, hfp]
    simp

/-- Witness for C6: the zero/zero handle (even carrying the identity token
of the live entry of `instPaused`) is not resumable, and resuming it fails
with `InvalidResumeState` leaving the paused store unchanged. -/
theorem invalid_resume_rejected_witness :
    can_resume zeroHandle instPaused = false ∧
    resume instModule 64 zeroHandle none instPaused = (.errInvalidResumeState, instPaused) := by
  have h1 := invalid_resume_rejected.2 zeroHandle instPaused rfl rfl
  exact ⟨h1, invalid_resume_rejected.1 instModule 64 zeroHandle none instPaused h1⟩

/-- C7: every `PausedState` produced by the capturer — whether reached
through a suspended top-level call or through a suspension during a resumed
continuation — has `pc ≠ 0 ∨ fp ≠ 0` (as does every handle minted from the
registry for it), so a both-zero state can only be injected from outside the
capture path, and `resume` rejects such a state. -/
theorem capturer_never_zero_state :
    (∀ (m : WasmModule) (inst fi gas : Nat) (s s' : Store),
        callFunc m inst fi gas s = (.errSuspended, s') →
        ∃ e, s'.registry = some e ∧ (e.state.pc ≠ 0 ∨ e.state.fp ≠ 0) ∧
          ∀ h, capture_execution_handle s' = some h → (h.state.pc ≠ 0 ∨ h.state.fp ≠ 0)) ∧
    (∀ (m : WasmModule) (gas : Nat) (h : ExecutionHandle) (ov : Option (List Nat)) (s s' : Store),
        resume m gas h ov s = (.errSuspended, s') →
        ∃ e, s'.registry = some e ∧ (e.state.pc ≠ 0 ∨ e.state.fp ≠ 0)) ∧
    (∀ (m : WasmModule) (gas : Nat) (h : ExecutionHandle) (ov : Option (List Nat)) (s : Store),
        h.state.pc = 0 → h.state.fp = 0 →
        resume m gas h ov s = (.errInvalidResumeState, s)) := by
  refine ⟨?_, ?_, ?_⟩
  · intro m inst fi gas s s' hc
    obtain ⟨e, hreg, -, hpc, -, -⟩ := callFunc_suspended_entry m inst fi gas s s' hc
    refine ⟨e, hreg, Or.inl (by rw [hpc]; exact one_ne_zero), ?_⟩
    intro h hcap
    unfold capture_execution_handle at hcap
    rw [hreg] at hcap
    simp only [Option.map_some', Option.some.injEq] at hcap
    subst hcap
    exact Or.inl (by rw [hpc]; exact one_ne_zero)
  · intro m gas h ov s s' hres
    obtain ⟨e, hreg, hpc, -, -⟩ := resume_suspended_entry m gas h ov s s' hres
    exact ⟨e, hreg, Or.inl (by rw [hpc]; exact one_ne_zero)⟩
  · intro m gas h ov s hpc hfp
    refine resume_invalid m gas h ov s ?_
    unfold can_resume
    rw [hpc, hfp]
    simp

/-- Witness for C7: the operand-stack test's suspension carries non-zero
addresses, and resuming the injected zero/zero handle is rejected. -/
theorem capturer_never_zero_state_witness :
    (∃ e, stackPaused.registry = some e ∧ (e.state.pc ≠ 0 ∨ e.state.fp ≠ 0) ∧
      ∀ h, capture_execution_handle stackPaused = some h →
        (h.state.pc ≠ 0 ∨ h.state.fp ≠ 0)) ∧
    resume stackModule 64 zeroHandle none stackPaused =
      (.errInvalidResumeState, stackPaused) := by
  refine ⟨capturer_never_zero_state.1 stackModule 1 0 64 (initStore true none 1)
      stackPaused (by decide),
    capturer_never_zero_state.2.2 stackModule 64 zeroHandle none stackPaused rfl rfl⟩

/-- C8: the metering budget is monotone across suspension: a top-level call
(suspended or not) never increases the remaining budget, a subsequent
`resume` never increases it either — so the budget after resume is at most
the budget immediately before the suspending call — and the snapshot only
samples the budget: the `remaining_budget` captured at a suspension equals
the store's fuel at the pause, undisturbed by the capture. -/
theorem metering_monotone (m : WasmModule) (inst fi gas gas' : Nat) (h : ExecutionHandle)
    (ov : Option (List Nat)) (s : Store) :
    budget (resume m gas' h ov (callFunc m inst fi gas s).2).2 ≤
      budget (callFunc m inst fi gas s).2 ∧
    budget (callFunc m inst fi gas s).2 ≤ budget s ∧
    ((callFunc m inst fi gas s).1 = .errSuspended →
      ∃ e, (callFunc m inst fi gas s).2.registry = some e ∧
        e.state.remaining_budget = (callFunc m inst fi gas s).2.fuel) := by
  refine ⟨resume_budget m gas' h ov _, callFunc_budget m inst fi gas s, ?_⟩
  intro h1
  obtain ⟨e, hreg, -, -, -, hbud⟩ := callFunc_suspended_entry m inst fi gas s
    (callFunc m inst fi gas s).2 (by rw [← h1])
  exact ⟨e, hreg, hbud⟩

/-- Witness for C8: the demo run with fuel 1000: the suspended call and the
override resume never replenish fuel, and the snapshot sampled the fuel at
the pause. -/
theorem metering_monotone_witness :
    budget (resume demoModule 64 demoHandle (some [42]) demoPaused).2 ≤ budget demoPaused ∧
    budget demoPaused ≤ budget demoStore0 ∧
    ∃ e, demoPaused.registry = some e ∧ e.state.remaining_budget = demoPaused.fuel := by
  have happ := metering_monotone demoModule 1 1 64 64 demoHandle (some [42]) demoStore0
  exact ⟨happ.1, happ.2.1, happ.2.2 (by decide)⟩

/-- C10: a suspension triggered from inside a host function (the demo, where
the pause host is called from `$helper_function`, itself called from the
exported `call_pause`) records the sentinel values `pc = 1, fp = 1` rather
than real machine addresses; this sentinel state is a valid paused state
(`can_resume` is true, the values being non-zero) and `resume` on it
succeeds even when override return values are supplied, completing
`call_pause` with 200 + 100 = 300. -/
theorem host_pause_sentinel_resumable :
    (callFunc demoModule 1 1 64 demoStore0).1 = .errSuspended ∧
    capture_execution_handle demoPaused = some demoHandle ∧
    demoHandle.state.pc = 1 ∧ demoHandle.state.fp = 1 ∧
    can_resume demoHandle demoPaused = true ∧
    (resume demoModule 64 demoHandle (some [42]) demoPaused).1 = .ok [300] := by
  decide

end PauseResume

namespace Rwasm

/-- C9: `build_rwasm_artifacts` never returns a value: for every abstracted
compilation step, wasm input, dwarf package and object state its outcome is
a panic, and whenever the discarded compilation itself completes without
panicking (returning `Ok` or `Err`), the panic reached is the unconditional
`panic!` with message "rwasm not implemented yet". -/
theorem build_rwasm_artifacts_never_returns (σ : Type)
    (compile_rwasm_function : RwasmModule2 → PanicOr (RustResult String Unit))
    (wasm : List Nat) (dwarf_package : Option (List Nat)) (obj_state : σ) :
    (∀ a, build_rwasm_artifacts σ compile_rwasm_function wasm dwarf_package obj_state ≠
      .ret a) ∧
    (∀ r, compile_rwasm_function (RwasmModule2.new wasm) = .ret r →
      build_rwasm_artifacts σ compile_rwasm_function wasm dwarf_package obj_state =
        .panicked "rwasm not implemented yet") := by
  constructor
  · intro a hcontra
    unfold build_rwasm_artifacts at hcontra
    split at hcontra <;> exact PanicOr.noConfusion hcontra
  · intro r hr
    unfold build_rwasm_artifacts
    rw [hr]

/-- Witness for C9: a compilation step that returns `Ok` on the wasm magic
bytes still ends in the unconditional panic. -/
theorem build_rwasm_artifacts_never_returns_witness :
    (build_rwasm_artifacts Unit (fun _ => .ret (.ok ())) [0, 97, 115, 109] none () ≠
      .ret (.ok { obj := [] })) ∧
    build_rwasm_artifacts Unit (fun _ => .ret (.ok ())) [0, 97, 115, 109] none () =
      .panicked "rwasm not implemented yet" := by
  have happ := build_rwasm_artifacts_never_returns Unit (fun _ => .ret (.ok ()))
    [0, 97, 115, 109] none ()
  exact ⟨happ.1 (.ok { obj := [] }), happ.2 (.ok ()) rfl⟩

end Rwasm
